import Mathlib

/-!
Shallow embedding of the cluster-api controller-manager bootstrap
(main.go): flag defaults, manager options, the read/write split client
factory, and the mode-selected registration of reconcilers and webhooks,
together with the fatal-error exit behaviour of the boot sequence.
-/

namespace CapiMain

/-- The five managed object kinds for which main.go installs reconcilers. -/
inductive Kind
  | cluster
  | machine
  | machineSet
  | machineDeployment
  | machinePool
  deriving DecidableEq, Repr

/-- Logger name used in the per-controller setupLog.Error call. -/
def Kind.controllerName : Kind → String
  | .cluster => "Cluster"
  | .machine => "Machine"
  | .machineSet => "MachineSet"
  | .machineDeployment => "MachineDeployment"
  | .machinePool => "MachinePool"

/-- The two API schema versions imported by main.go. -/
inductive ApiVersion
  | v1alpha2
  | v1alpha3
  deriving DecidableEq, Repr

/-- The object types on which SetupWebhookWithManager is invoked in
setupWebhooks (main and list variants). -/
inductive WebhookObj
  | cluster
  | clusterList
  | machine
  | machineList
  | machineSet
  | machineSetList
  | machineDeployment
  | machineDeploymentList
  | machinePool
  deriving DecidableEq, Repr

/-- The managed kind a webhook object belongs to (list variants map to
their element kind). -/
def WebhookObj.kindOf : WebhookObj → Kind
  | .cluster => .cluster
  | .clusterList => .cluster
  | .machine => .machine
  | .machineList => .machine
  | .machineSet => .machineSet
  | .machineSetList => .machineSet
  | .machineDeployment => .machineDeployment
  | .machineDeploymentList => .machineDeployment
  | .machinePool => .machinePool

/-- Name used in the per-webhook setupLog.Error call. -/
def WebhookObj.webhookName : WebhookObj → String
  | .cluster => "Cluster"
  | .clusterList => "ClusterList"
  | .machine => "Machine"
  | .machineList => "MachineList"
  | .machineSet => "MachineSet"
  | .machineSetList => "MachineSetList"
  | .machineDeployment => "MachineDeployment"
  | .machineDeploymentList => "MachineDeploymentList"
  | .machinePool => "MachinePool"

/-- The non-list webhook object of a managed kind. -/
def Kind.webhookObj : Kind → WebhookObj
  | .cluster => .cluster
  | .machine => .machine
  | .machineSet => .machineSet
  | .machineDeployment => .machineDeployment
  | .machinePool => .machinePool

/-- One nanosecond is the unit of Go time.Duration; time.Minute in
nanoseconds. -/
def timeMinute : Int := 60 * 1000000000

/-- Snapshot of the CLI flag variables of main.go after flag.Parse.
syncPeriod is a Go time.Duration measured in nanoseconds. -/
structure Config where
  metricsAddr : String
  enableLeaderElection : Bool
  watchNamespace : String
  profilerAddress : String
  clusterConcurrency : Int
  machineConcurrency : Int
  machineSetConcurrency : Int
  machineDeploymentConcurrency : Int
  machinePoolConcurrency : Int
  syncPeriod : Int
  webhookPort : Int
  healthAddr : String
  deriving DecidableEq, Repr

/-- The default value of every flag registered in main (main.go lines
71 to 106): the configuration obtained when no flag is set. -/
def defaultConfig : Config where
  metricsAddr := ":8080"
  enableLeaderElection := false
  watchNamespace := ""
  profilerAddress := ""
  clusterConcurrency := 10
  machineConcurrency := 10
  machineSetConcurrency := 10
  machineDeploymentConcurrency := 10
  machinePoolConcurrency := 10
  syncPeriod := 10 * timeMinute
  webhookPort := 0
  healthAddr := ":9440"

/-- The ctrl.Options literal passed to ctrl.NewManager in main
(main.go lines 118 to 128), minus the scheme and the NewClient function
pointer. -/
structure ManagerOptions where
  metricsBindAddress : String
  leaderElection : Bool
  leaderElectionID : String
  namespaceOpt : String
  syncPeriod : Int
  port : Int
  healthProbeBindAddress : String
  deriving DecidableEq, Repr

/-- The options main passes to ctrl.NewManager, as a function of the
parsed flags. -/
def managerOptions (cfg : Config) : ManagerOptions where
  metricsBindAddress := cfg.metricsAddr
  leaderElection := cfg.enableLeaderElection
  leaderElectionID := "controller-leader-election-capi"
  namespaceOpt := cfg.watchNamespace
  syncPeriod := cfg.syncPeriod
  port := cfg.webhookPort
  healthProbeBindAddress := cfg.healthAddr

/-! ## The split client factory (newClientFunc) -/

/-- Connection configuration for the authoritative store (rest.Config). -/
structure RestConfig where
  host : String
  deriving DecidableEq, Repr

/-- Client construction options (client.Options: scheme and mapper),
abstracted to an identifier. -/
structure ClientOptions where
  schemeId : Nat
  deriving DecidableEq, Repr

/-- The manager's cache handle (cache.Cache), abstracted to an
identifier. -/
structure CacheHandle where
  id : Nat
  deriving DecidableEq, Repr

/-- A direct client as built by client.New from a connection config and
options; it talks to the authoritative store, bypassing the cache. -/
structure DirectClient where
  config : RestConfig
  options : ClientOptions
  deriving DecidableEq, Repr

/-- A value a DelegatingClient field can hold: the cache (a Reader) or a
direct client. -/
inductive ClientRef
  | cacheRef (c : CacheHandle)
  | directRef (c : DirectClient)
  deriving DecidableEq, Repr

/-- client.DelegatingClient: routes reads to Reader, writes to Writer and
status writes to StatusClient. -/
structure DelegatingClient where
  reader : ClientRef
  writer : ClientRef
  statusClient : ClientRef
  deriving DecidableEq, Repr

/-- newClientFunc (main.go lines 273 to 285): build the direct client c
with client.New; on failure propagate the error; on success return a
DelegatingClient reading from the cache and writing (spec and status)
through c. The external constructor client.New is a parameter. -/
def newClientFunc (clientNew : RestConfig → ClientOptions → Except String DirectClient)
    (cache : CacheHandle) (config : RestConfig) (options : ClientOptions) :
    Except String DelegatingClient :=
  match clientNew config options with
  | .error err => .error err
  | .ok c => .ok { reader := .cacheRef cache, writer := .directRef c, statusClient := .directRef c }

/-! ## Controller and webhook registration -/

/-- controller.Options as produced by the concurrency helper. -/
structure ControllerOptions where
  maxConcurrentReconciles : Int
  deriving DecidableEq, Repr

/-- concurrency (main.go lines 266 to 268). -/
def concurrency (c : Int) : ControllerOptions :=
  { maxConcurrentReconciles := c }

/-- A reconciler registered with the manager: its kind and the controller
options it was given. -/
structure ControllerBinding where
  kind : Kind
  options : ControllerOptions
  deriving DecidableEq, Repr

/-- A webhook handler registered with the manager: schema version and
object type. -/
structure WebhookRegistration where
  version : ApiVersion
  obj : WebhookObj
  deriving DecidableEq, Repr

/-- Observable registration state of the manager accumulated during boot. -/
structure ManagerState where
  readyzChecks : List String
  healthzChecks : List String
  reconcilers : List ControllerBinding
  webhooks : List WebhookRegistration
  deriving DecidableEq, Repr

/-- The manager state right after ctrl.NewManager returns. -/
def ManagerState.empty : ManagerState where
  readyzChecks := []
  healthzChecks := []
  reconcilers := []
  webhooks := []

/-- Which external calls fail in a given run: ctrl.NewManager, the two
check registrations, each SetupWithManager, each SetupWebhookWithManager,
the profiler ListenAndServe, and mgr.Start. -/
structure Env where
  newManagerFails : Bool
  addReadyzCheckFails : Bool
  addHealthzCheckFails : Bool
  reconcilerSetupFails : Kind → Bool
  webhookSetupFails : ApiVersion → WebhookObj → Bool
  profilerServeFails : Bool
  managerRunFails : Bool

/-- The environment in which every external call succeeds. -/
def okEnv : Env where
  newManagerFails := false
  addReadyzCheckFails := false
  addHealthzCheckFails := false
  reconcilerSetupFails := fun _ => false
  webhookSetupFails := fun _ _ => false
  profilerServeFails := false
  managerRunFails := false

/-- The boot stage at which a fatal error (setupLog.Error followed by
os.Exit(1)) can occur. -/
inductive FatalStage
  | managerConstruction
  | readyCheck
  | healthCheck
  | controllerSetup (k : Kind)
  | webhookSetup (v : ApiVersion) (o : WebhookObj)
  | managerRun
  deriving DecidableEq, Repr

/-- A log line: message plus key-value pairs, as emitted by setupLog. -/
structure LogLine where
  message : String
  keyValues : List (String × String)
  deriving DecidableEq, Repr

/-- The setupLog.Error line emitted at each fatal stage (exact strings of
main.go). -/
def FatalStage.logLine : FatalStage → LogLine
  | .managerConstruction => ⟨"unable to start manager", []⟩
  | .readyCheck => ⟨"unable to create ready check", []⟩
  | .healthCheck => ⟨"unable to create health check", []⟩
  | .controllerSetup k => ⟨"unable to create controller", [("controller", k.controllerName)]⟩
  | .webhookSetup _ o => ⟨"unable to create webhook", [("webhook", o.webhookName)]⟩
  | .managerRun => ⟨"problem running manager", []⟩

/-- setupChecks (main.go lines 146 to 156): register the ping readyz
check, then the ping healthz check; either failure is fatal. -/
def setupChecks (env : Env) (st : ManagerState) : Except FatalStage ManagerState :=
  if env.addReadyzCheckFails then .error .readyCheck
  else
    let st := { st with readyzChecks := st.readyzChecks ++ ["ping"] }
    if env.addHealthzCheckFails then .error .healthCheck
    else .ok { st with healthzChecks := st.healthzChecks ++ ["ping"] }

/-- One SetupWithManager call of setupReconcilers: fails fatally at stage
controllerSetup k, or appends the binding for kind k with the given
controller options. -/
def registerReconciler (env : Env) (k : Kind) (opts : ControllerOptions)
    (st : ManagerState) : Except FatalStage ManagerState :=
  if env.reconcilerSetupFails k then .error (.controllerSetup k)
  else .ok { st with reconcilers := st.reconcilers ++ [⟨k, opts⟩] }

/-- setupReconcilers (main.go lines 158 to 197): return immediately when
the webhook port is nonzero; otherwise register the five reconcilers in
source order, each with its own concurrency flag. -/
def setupReconcilers (env : Env) (cfg : Config) (st : ManagerState) :
    Except FatalStage ManagerState :=
  if cfg.webhookPort ≠ 0 then .ok st
  else do
    let st ← registerReconciler env .cluster (concurrency cfg.clusterConcurrency) st
    let st ← registerReconciler env .machine (concurrency cfg.machineConcurrency) st
    let st ← registerReconciler env .machineSet (concurrency cfg.machineSetConcurrency) st
    let st ← registerReconciler env .machineDeployment
      (concurrency cfg.machineDeploymentConcurrency) st
    let st ← registerReconciler env .machinePool (concurrency cfg.machinePoolConcurrency) st
    pure st

/-- One SetupWebhookWithManager call of setupWebhooks: fails fatally at
stage webhookSetup v o, or appends the registration. -/
def registerWebhook (env : Env) (v : ApiVersion) (o : WebhookObj)
    (st : ManagerState) : Except FatalStage ManagerState :=
  if env.webhookSetupFails v o then .error (.webhookSetup v o)
  else .ok { st with webhooks := st.webhooks ++ [⟨v, o⟩] }

/-- setupWebhooks (main.go lines 199 to 264): return immediately when the
webhook port is zero; otherwise register the thirteen webhook handlers in
source order. -/
def setupWebhooks (env : Env) (cfg : Config) (st : ManagerState) :
    Except FatalStage ManagerState :=
  if cfg.webhookPort = 0 then .ok st
  else do
    let st ← registerWebhook env .v1alpha2 .cluster st
    let st ← registerWebhook env .v1alpha3 .cluster st
    let st ← registerWebhook env .v1alpha2 .clusterList st
    let st ← registerWebhook env .v1alpha2 .machine st
    let st ← registerWebhook env .v1alpha3 .machine st
    let st ← registerWebhook env .v1alpha2 .machineList st
    let st ← registerWebhook env .v1alpha2 .machineSet st
    let st ← registerWebhook env .v1alpha3 .machineSet st
    let st ← registerWebhook env .v1alpha2 .machineSetList st
    let st ← registerWebhook env .v1alpha2 .machineDeployment st
    let st ← registerWebhook env .v1alpha3 .machineDeployment st
    let st ← registerWebhook env .v1alpha2 .machineDeploymentList st
    let st ← registerWebhook env .v1alpha3 .machinePool st
    pure st

/-- The registration phase of main after ctrl.NewManager succeeds:
setupChecks, setupReconcilers, setupWebhooks, in that order. -/
def bootRegistration (env : Env) (cfg : Config) : Except FatalStage ManagerState := do
  let st ← setupChecks env ManagerState.empty
  let st ← setupReconcilers env cfg st
  let st ← setupWebhooks env cfg st
  pure st

/-- How a run of main ends: os.Exit(1) at some fatal stage, or mgr.Start
returning nil and main returning (process exit code 0). -/
inductive MainOutcome
  | fatalExit (stage : FatalStage)
  | ranToCompletion (st : ManagerState)
  deriving DecidableEq, Repr

/-- The process exit code of an outcome. -/
def MainOutcome.exitCode : MainOutcome → Nat
  | .fatalExit _ => 1
  | .ranToCompletion _ => 0

/-- Everything observable about one run of main: the outcome, the log,
whether the profiler goroutine was spawned, and the options passed to
ctrl.NewManager. -/
structure MainResult where
  outcome : MainOutcome
  logs : List LogLine
  profilerStarted : Bool
  options : ManagerOptions
  deriving DecidableEq, Repr

/-- main (main.go lines 70 to 144) after flag parsing: spawn the profiler
goroutine when a profiler address is set (its ListenAndServe result is
only logged); construct the manager; run setupChecks, setupReconcilers
and setupWebhooks; log starting manager and call mgr.Start. Every error
on the main path is logged and turns into os.Exit(1). -/
def mainRun (env : Env) (cfg : Config) : MainResult :=
  let started := cfg.profilerAddress ≠ ""
  let profilerLogs : List LogLine :=
    (if started then
      [⟨"Profiler listening for requests at " ++ cfg.profilerAddress, []⟩] else []) ++
    (if started ∧ env.profilerServeFails then [⟨"profiler serve error", []⟩] else [])
  let opts := managerOptions cfg
  if env.newManagerFails then
    { outcome := .fatalExit .managerConstruction
      logs := profilerLogs ++ [FatalStage.logLine .managerConstruction]
      profilerStarted := started
      options := opts }
  else
    match bootRegistration env cfg with
    | .error e =>
        { outcome := .fatalExit e
          logs := profilerLogs ++ [e.logLine]
          profilerStarted := started
          options := opts }
    | .ok st =>
        if env.managerRunFails then
          { outcome := .fatalExit .managerRun
            logs := profilerLogs ++ [⟨"starting manager", []⟩, FatalStage.logLine .managerRun]
            profilerStarted := started
            options := opts }
        else
          { outcome := .ranToCompletion st
            logs := profilerLogs ++ [⟨"starting manager", []⟩]
            profilerStarted := started
            options := opts }

/-- The concurrency flag belonging to a kind. -/
def Config.concurrencyFor (cfg : Config) : Kind → Int
  | .cluster => cfg.clusterConcurrency
  | .machine => cfg.machineConcurrency
  | .machineSet => cfg.machineSetConcurrency
  | .machineDeployment => cfg.machineDeploymentConcurrency
  | .machinePool => cfg.machinePoolConcurrency

/-- The five controller bindings setupReconcilers creates, in source
order, as a function of the flags. -/
def reconcilerBindings (cfg : Config) : List ControllerBinding :=
  [⟨.cluster, concurrency cfg.clusterConcurrency⟩,
   ⟨.machine, concurrency cfg.machineConcurrency⟩,
   ⟨.machineSet, concurrency cfg.machineSetConcurrency⟩,
   ⟨.machineDeployment, concurrency cfg.machineDeploymentConcurrency⟩,
   ⟨.machinePool, concurrency cfg.machinePoolConcurrency⟩]

/-- The thirteen webhook registrations setupWebhooks creates, in source
order. -/
def webhookRegistrations : List WebhookRegistration :=
  [⟨.v1alpha2, .cluster⟩, ⟨.v1alpha3, .cluster⟩, ⟨.v1alpha2, .clusterList⟩,
   ⟨.v1alpha2, .machine⟩, ⟨.v1alpha3, .machine⟩, ⟨.v1alpha2, .machineList⟩,
   ⟨.v1alpha2, .machineSet⟩, ⟨.v1alpha3, .machineSet⟩, ⟨.v1alpha2, .machineSetList⟩,
   ⟨.v1alpha2, .machineDeployment⟩, ⟨.v1alpha3, .machineDeployment⟩,
   ⟨.v1alpha2, .machineDeploymentList⟩, ⟨.v1alpha3, .machinePool⟩]

/-- A configuration that selects webhook mode (port 9443), all other
flags at their defaults. -/
def webhookConfig : Config := { defaultConfig with webhookPort := 9443 }

/-- The manager state a successful reconciliation-mode boot ends in. -/
def reconFinalState : ManagerState where
  readyzChecks := ["ping"]
  healthzChecks := ["ping"]
  reconcilers := reconcilerBindings defaultConfig
  webhooks := []

/-- The manager state a successful webhook-mode boot ends in. -/
def webhookFinalState : ManagerState where
  readyzChecks := ["ping"]
  healthzChecks := ["ping"]
  reconcilers := []
  webhooks := webhookRegistrations

/-- Defaults except that the cluster concurrency flag is set to zero. -/
def zeroConcurrencyConfig : Config := { defaultConfig with clusterConcurrency := 0 }

/-- The configuration cfg with the concurrency flag of kind k set to c. -/
def Config.setConcurrency (cfg : Config) : Kind → Int → Config
  | .cluster, c => { cfg with clusterConcurrency := c }
  | .machine, c => { cfg with machineConcurrency := c }
  | .machineSet, c => { cfg with machineSetConcurrency := c }
  | .machineDeployment, c => { cfg with machineDeploymentConcurrency := c }
  | .machinePool, c => { cfg with machinePoolConcurrency := c }

/-- An environment in which only ctrl.NewManager fails. -/
def failManagerEnv : Env := { okEnv with newManagerFails := true }

/-- A concrete always-succeeding client.New for exercising newClientFunc. -/
def okClientNew : RestConfig → ClientOptions → Except String DirectClient :=
  fun config options => .ok ⟨config, options⟩

/-! ## Helper lemmas -/

theorem bind_ok_elim {α β : Type} {x : Except FatalStage α} {f : α → Except FatalStage β}
    {b : β} (h : (x >>= f) = .ok b) : ∃ a, x = .ok a ∧ f a = .ok b := by
  cases x with
  | error e => simp [Bind.bind, Except.bind] at h
  | ok a => exact ⟨a, rfl, h⟩

theorem setupChecks_ok {env : Env} {st st' : ManagerState}
    (h : setupChecks env st = .ok st') :
    st' = { st with readyzChecks := st.readyzChecks ++ ["ping"],
                    healthzChecks := st.healthzChecks ++ ["ping"] } := by
  unfold setupChecks at h
  by_cases h1 : env.addReadyzCheckFails <;> simp [h1] at h
  by_cases h2 : env.addHealthzCheckFails <;> simp [h2] at h
  exact h.symm

theorem registerReconciler_ok {env : Env} {k : Kind} {opts : ControllerOptions}
    {st st' : ManagerState} (h : registerReconciler env k opts st = .ok st') :
    st' = { st with reconcilers := st.reconcilers ++ [⟨k, opts⟩] } := by
  unfold registerReconciler at h
  by_cases h1 : env.reconcilerSetupFails k <;> simp [h1] at h
  exact h.symm

theorem registerWebhook_ok {env : Env} {v : ApiVersion} {o : WebhookObj}
    {st st' : ManagerState} (h : registerWebhook env v o st = .ok st') :
    st' = { st with webhooks := st.webhooks ++ [⟨v, o⟩] } := by
  unfold registerWebhook at h
  by_cases h1 : env.webhookSetupFails v o <;> simp [h1] at h
  exact h.symm

theorem setupReconcilers_ok_spec {env : Env} {cfg : Config} {st st' : ManagerState}
    (h : setupReconcilers env cfg st = .ok st') :
    (cfg.webhookPort ≠ 0 ∧ st' = st) ∨
    (cfg.webhookPort = 0 ∧
      st' = { st with reconcilers := st.reconcilers ++ reconcilerBindings cfg }) := by
  unfold setupReconcilers at h
  by_cases hp : cfg.webhookPort = 0
  · simp [hp] at h
    obtain ⟨s1, h1, h⟩ := bind_ok_elim h
    obtain ⟨s2, h2, h⟩ := bind_ok_elim h
    obtain ⟨s3, h3, h⟩ := bind_ok_elim h
    obtain ⟨s4, h4, h⟩ := bind_ok_elim h
    obtain rfl := registerReconciler_ok h1
    obtain rfl := registerReconciler_ok h2
    obtain rfl := registerReconciler_ok h3
    obtain rfl := registerReconciler_ok h4
    obtain rfl := registerReconciler_ok h
    exact Or.inr ⟨hp, by simp [reconcilerBindings]⟩
  · simp [hp] at h
    exact Or.inl ⟨hp, h.symm⟩

theorem setupWebhooks_ok_spec {env : Env} {cfg : Config} {st st' : ManagerState}
    (h : setupWebhooks env cfg st = .ok st') :
    (cfg.webhookPort = 0 ∧ st' = st) ∨
    (cfg.webhookPort ≠ 0 ∧
      st' = { st with webhooks := st.webhooks ++ webhookRegistrations }) := by
  unfold setupWebhooks at h
  by_cases hp : cfg.webhookPort = 0
  · simp [hp] at h
    exact Or.inl ⟨hp, h.symm⟩
  · simp [hp] at h
    obtain ⟨s1, h1, h⟩ := bind_ok_elim h
    obtain ⟨s2, h2, h⟩ := bind_ok_elim h
    obtain ⟨s3, h3, h⟩ := bind_ok_elim h
    obtain ⟨s4, h4, h⟩ := bind_ok_elim h
    obtain ⟨s5, h5, h⟩ := bind_ok_elim h
    obtain ⟨s6, h6, h⟩ := bind_ok_elim h
    obtain ⟨s7, h7, h⟩ := bind_ok_elim h
    obtain ⟨s8, h8, h⟩ := bind_ok_elim h
    obtain ⟨s9, h9, h⟩ := bind_ok_elim h
    obtain ⟨s10, h10, h⟩ := bind_ok_elim h
    obtain ⟨s11, h11, h⟩ := bind_ok_elim h
    obtain ⟨s12, h12, h⟩ := bind_ok_elim h
    obtain rfl := registerWebhook_ok h1
    obtain rfl := registerWebhook_ok h2
    obtain rfl := registerWebhook_ok h3
    obtain rfl := registerWebhook_ok h4
    obtain rfl := registerWebhook_ok h5
    obtain rfl := registerWebhook_ok h6
    obtain rfl := registerWebhook_ok h7
    obtain rfl := registerWebhook_ok h8
    obtain rfl := registerWebhook_ok h9
    obtain rfl := registerWebhook_ok h10
    obtain rfl := registerWebhook_ok h11
    obtain rfl := registerWebhook_ok h12
    obtain rfl := registerWebhook_ok h
    exact Or.inr ⟨hp, by simp [webhookRegistrations]⟩

theorem bootRegistration_ok_spec {env : Env} {cfg : Config} {st' : ManagerState}
    (h : bootRegistration env cfg = .ok st') :
    (cfg.webhookPort = 0 ∧
       st' = { readyzChecks := ["ping"], healthzChecks := ["ping"],
               reconcilers := reconcilerBindings cfg, webhooks := [] }) ∨
    (cfg.webhookPort ≠ 0 ∧
       st' = { readyzChecks := ["ping"], healthzChecks := ["ping"],
               reconcilers := [], webhooks := webhookRegistrations }) := by
  unfold bootRegistration at h
  obtain ⟨s1, hc, h⟩ := bind_ok_elim h
  obtain ⟨s2, hr, h⟩ := bind_ok_elim h
  obtain ⟨s3, hw, h⟩ := bind_ok_elim h
  simp only [pure, Except.pure, Except.ok.injEq] at h
  subst h
  obtain rfl := setupChecks_ok hc
  rcases setupReconcilers_ok_spec hr with ⟨hp, h2⟩ | ⟨hp, h2⟩ <;> subst h2 <;>
    rcases setupWebhooks_ok_spec hw with ⟨hq, h3⟩ | ⟨hq, h3⟩ <;> subst h3
  · exact absurd hq hp
  · exact Or.inr ⟨hp, by simp [ManagerState.empty]⟩
  · exact Or.inl ⟨hq, by simp [ManagerState.empty]⟩
  · exact absurd hp hq

theorem bind_error_elim {α β : Type} {x : Except FatalStage α} {f : α → Except FatalStage β}
    {e : FatalStage} (h : (x >>= f) = .error e) :
    x = .error e ∨ ∃ a, x = .ok a ∧ f a = .error e := by
  cases x with
  | error e2 =>
    left
    have : e2 = e := by
      simpa [Bind.bind, Except.bind] using h
    rw [this]
  | ok a => exact Or.inr ⟨a, rfl, h⟩

theorem setupChecks_error {env : Env} {st : ManagerState} {e : FatalStage}
    (h : setupChecks env st = .error e) : e = .readyCheck ∨ e = .healthCheck := by
  unfold setupChecks at h
  by_cases h1 : env.addReadyzCheckFails <;> simp [h1] at h
  · exact Or.inl h.symm
  · by_cases h2 : env.addHealthzCheckFails <;> simp [h2] at h
    exact Or.inr h.symm

theorem registerReconciler_error {env : Env} {k : Kind} {opts : ControllerOptions}
    {st : ManagerState} {e : FatalStage} (h : registerReconciler env k opts st = .error e) :
    e = .controllerSetup k := by
  unfold registerReconciler at h
  by_cases h1 : env.reconcilerSetupFails k <;> simp [h1] at h
  exact h.symm

theorem registerWebhook_error {env : Env} {v : ApiVersion} {o : WebhookObj}
    {st : ManagerState} {e : FatalStage} (h : registerWebhook env v o st = .error e) :
    e = .webhookSetup v o := by
  unfold registerWebhook at h
  by_cases h1 : env.webhookSetupFails v o <;> simp [h1] at h
  exact h.symm

theorem setupReconcilers_error {env : Env} {cfg : Config} {st : ManagerState} {e : FatalStage}
    (h : setupReconcilers env cfg st = .error e) : ∃ k, e = .controllerSetup k := by
  unfold setupReconcilers at h
  by_cases hp : cfg.webhookPort = 0 <;> simp [hp] at h
  rcases bind_error_elim h with h | ⟨a1, _, h⟩
  · exact ⟨_, registerReconciler_error h⟩
  rcases bind_error_elim h with h | ⟨a2, _, h⟩
  · exact ⟨_, registerReconciler_error h⟩
  rcases bind_error_elim h with h | ⟨a3, _, h⟩
  · exact ⟨_, registerReconciler_error h⟩
  rcases bind_error_elim h with h | ⟨a4, _, h⟩
  · exact ⟨_, registerReconciler_error h⟩
  exact ⟨_, registerReconciler_error h⟩

theorem setupWebhooks_error {env : Env} {cfg : Config} {st : ManagerState} {e : FatalStage}
    (h : setupWebhooks env cfg st = .error e) : ∃ v o, e = .webhookSetup v o := by
  unfold setupWebhooks at h
  by_cases hp : cfg.webhookPort = 0 <;> simp [hp] at h
  rcases bind_error_elim h with h | ⟨a1, _, h⟩
  · exact ⟨_, _, registerWebhook_error h⟩
  rcases bind_error_elim h with h | ⟨a2, _, h⟩
  · exact ⟨_, _, registerWebhook_error h⟩
  rcases bind_error_elim h with h | ⟨a3, _, h⟩
  · exact ⟨_, _, registerWebhook_error h⟩
  rcases bind_error_elim h with h | ⟨a4, _, h⟩
  · exact ⟨_, _, registerWebhook_error h⟩
  rcases bind_error_elim h with h | ⟨a5, _, h⟩
  · exact ⟨_, _, registerWebhook_error h⟩
  rcases bind_error_elim h with h | ⟨a6, _, h⟩
  · exact ⟨_, _, registerWebhook_error h⟩
  rcases bind_error_elim h with h | ⟨a7, _, h⟩
  · exact ⟨_, _, registerWebhook_error h⟩
  rcases bind_error_elim h with h | ⟨a8, _, h⟩
  · exact ⟨_, _, registerWebhook_error h⟩
  rcases bind_error_elim h with h | ⟨a9, _, h⟩
  · exact ⟨_, _, registerWebhook_error h⟩
  rcases bind_error_elim h with h | ⟨a10, _, h⟩
  · exact ⟨_, _, registerWebhook_error h⟩
  rcases bind_error_elim h with h | ⟨a11, _, h⟩
  · exact ⟨_, _, registerWebhook_error h⟩
  rcases bind_error_elim h with h | ⟨a12, _, h⟩
  · exact ⟨_, _, registerWebhook_error h⟩
  exact ⟨_, _, registerWebhook_error h⟩

theorem bootRegistration_error_stage {env : Env} {cfg : Config} {e : FatalStage}
    (h : bootRegistration env cfg = .error e) :
    e ≠ .managerConstruction ∧ e ≠ .managerRun := by
  unfold bootRegistration at h
  rcases bind_error_elim h with h | ⟨s1, _, h⟩
  · rcases setupChecks_error h with rfl | rfl <;> exact ⟨by simp, by simp⟩
  rcases bind_error_elim h with h | ⟨s2, _, h⟩
  · obtain ⟨k, rfl⟩ := setupReconcilers_error h
    exact ⟨by simp, by simp⟩
  rcases bind_error_elim h with h | ⟨s3, _, h⟩
  · obtain ⟨v, o, rfl⟩ := setupWebhooks_error h
    exact ⟨by simp, by simp⟩
  simp [pure, Except.pure] at h

theorem bootRegistration_profiler_irrel (env : Env) (b : Bool) (cfg : Config) :
    bootRegistration { env with profilerServeFails := b } cfg = bootRegistration env cfg := rfl

theorem mainRun_options (env : Env) (cfg : Config) :
    (mainRun env cfg).options = managerOptions cfg := by
  by_cases hm : env.newManagerFails <;> rcases hb : bootRegistration env cfg with e | st <;>
    by_cases hr : env.managerRunFails <;> simp [mainRun, hm, hb, hr]

theorem mainRun_profiler_irrel (env : Env) (b : Bool) (cfg : Config) :
    (mainRun { env with profilerServeFails := b } cfg).outcome = (mainRun env cfg).outcome := by
  unfold mainRun
  simp only [bootRegistration_profiler_irrel]
  by_cases hm : env.newManagerFails <;> rcases hb : bootRegistration env cfg with e | st <;>
    by_cases hr : env.managerRunFails <;> simp [hm, hb, hr]

/-! ## Claims -/

/-- Claim C1: boot modes are mutually exclusive. When the webhook port is
nonzero, setupReconcilers registers nothing (returns the state unchanged,
never failing); when the webhook port is zero, setupWebhooks registers
nothing; and no successful boot registers both a reconciliation binding
and a webhook handler. -/
theorem boot_modes_mutually_exclusive (env : Env) (cfg : Config) :
    (cfg.webhookPort ≠ 0 → ∀ st, setupReconcilers env cfg st = .ok st) ∧
    (cfg.webhookPort = 0 → ∀ st, setupWebhooks env cfg st = .ok st) ∧
    (∀ st', bootRegistration env cfg = .ok st' →
       st'.reconcilers = [] ∨ st'.webhooks = []) := by
  refine ⟨?_, ?_, ?_⟩
  · intro h st
    simp [setupReconcilers, h]
  · intro h st
    simp [setupWebhooks, h]
  · intro st' h
    rcases bootRegistration_ok_spec h with ⟨hp, rfl⟩ | ⟨hp, rfl⟩
    · exact Or.inr rfl
    · exact Or.inl rfl

theorem boot_modes_mutually_exclusive_witness :
    setupReconcilers okEnv webhookConfig ManagerState.empty = .ok ManagerState.empty ∧
    setupWebhooks okEnv defaultConfig ManagerState.empty = .ok ManagerState.empty ∧
    (webhookFinalState.reconcilers = [] ∨ webhookFinalState.webhooks = []) :=
  ⟨(boot_modes_mutually_exclusive okEnv webhookConfig).1 (by decide) ManagerState.empty,
   (boot_modes_mutually_exclusive okEnv defaultConfig).2.1 rfl ManagerState.empty,
   (boot_modes_mutually_exclusive okEnv webhookConfig).2.2 webhookFinalState rfl⟩

/-- Claim C2: newClientFunc yields a DelegatingClient whose Reader is the
cache handle and whose Writer and StatusClient are both the direct client
freshly built by client.New from the store connection config and options. -/
theorem newClientFunc_split
    (clientNew : RestConfig → ClientOptions → Except String DirectClient)
    (cache : CacheHandle) (config : RestConfig) (options : ClientOptions)
    (dc : DelegatingClient) (h : newClientFunc clientNew cache config options = .ok dc) :
    dc.reader = .cacheRef cache ∧
    ∃ c, clientNew config options = .ok c ∧
      dc.writer = .directRef c ∧ dc.statusClient = .directRef c := by
  unfold newClientFunc at h
  rcases hc : clientNew config options with e | c <;> rw [hc] at h <;> simp at h
  subst h
  exact ⟨rfl, c, rfl, rfl, rfl⟩

theorem newClientFunc_split_witness :
    DelegatingClient.reader
        { reader := .cacheRef ⟨7⟩, writer := .directRef ⟨⟨"store"⟩, ⟨1⟩⟩,
          statusClient := .directRef ⟨⟨"store"⟩, ⟨1⟩⟩ } = .cacheRef ⟨7⟩ ∧
    ∃ c, okClientNew ⟨"store"⟩ ⟨1⟩ = .ok c ∧
      DelegatingClient.writer
          { reader := .cacheRef ⟨7⟩, writer := .directRef ⟨⟨"store"⟩, ⟨1⟩⟩,
            statusClient := .directRef ⟨⟨"store"⟩, ⟨1⟩⟩ } = .directRef c ∧
      DelegatingClient.statusClient
          { reader := .cacheRef ⟨7⟩, writer := .directRef ⟨⟨"store"⟩, ⟨1⟩⟩,
            statusClient := .directRef ⟨⟨"store"⟩, ⟨1⟩⟩ } = .directRef c :=
  newClientFunc_split okClientNew ⟨7⟩ ⟨"store"⟩ ⟨1⟩ _ rfl

/-- Claim C3 counterexample: booting in webhook mode (port 9443, every
external call succeeding) registers the thirteen handlers of
webhookRegistrations, and none of them is a v1alpha2 handler for the
machine pool kind, so handlers are not registered for every managed kind
across both schema versions. -/
theorem webhook_all_versions_counterexample :
    bootRegistration okEnv webhookConfig = .ok webhookFinalState ∧
    (∀ r ∈ webhookFinalState.webhooks,
       ¬(r.version = ApiVersion.v1alpha2 ∧ r.obj.kindOf = Kind.machinePool)) := by
  exact ⟨rfl, by decide⟩

/-- Claim C3 (amended): when the webhook port is nonzero a successful
boot registers zero reconciliation bindings and exactly the thirteen
webhook handlers of setupWebhooks: every managed kind in v1alpha3, every
managed kind except machine pool in v1alpha2 (plus the v1alpha2 list
variants); machine pool gets no v1alpha2 handler. -/
theorem webhook_mode_registrations (env : Env) (cfg : Config) (st' : ManagerState)
    (hport : cfg.webhookPort ≠ 0) (h : bootRegistration env cfg = .ok st') :
    st'.reconcilers = [] ∧ st'.webhooks = webhookRegistrations ∧
    (∀ k : Kind, WebhookRegistration.mk .v1alpha3 k.webhookObj ∈ st'.webhooks) ∧
    (∀ k : Kind, k ≠ .machinePool →
       WebhookRegistration.mk .v1alpha2 k.webhookObj ∈ st'.webhooks) ∧
    WebhookRegistration.mk .v1alpha2 Kind.machinePool.webhookObj ∉ st'.webhooks := by
  rcases bootRegistration_ok_spec h with ⟨hp, rfl⟩ | ⟨hp, rfl⟩
  · exact absurd hp hport
  · refine ⟨rfl, rfl, ?_, ?_, by decide⟩
    · intro k
      cases k <;> decide
    · intro k hk
      cases k <;> first | decide | exact absurd rfl hk

theorem webhook_mode_registrations_witness :
    webhookFinalState.reconcilers = [] ∧
    webhookFinalState.webhooks = webhookRegistrations ∧
    (∀ k : Kind, WebhookRegistration.mk .v1alpha3 k.webhookObj ∈ webhookFinalState.webhooks) ∧
    (∀ k : Kind, k ≠ .machinePool →
       WebhookRegistration.mk .v1alpha2 k.webhookObj ∈ webhookFinalState.webhooks) ∧
    WebhookRegistration.mk .v1alpha2 Kind.machinePool.webhookObj ∉ webhookFinalState.webhooks :=
  webhook_mode_registrations okEnv webhookConfig webhookFinalState (by decide) rfl

/-- Claim C4: when the webhook port is zero a successful boot registers
exactly five reconciliation bindings, one per managed kind in source
order, and zero webhook handlers. -/
theorem reconciler_mode_registrations (env : Env) (cfg : Config) (st' : ManagerState)
    (hport : cfg.webhookPort = 0) (h : bootRegistration env cfg = .ok st') :
    st'.webhooks = [] ∧
    st'.reconcilers = reconcilerBindings cfg ∧
    st'.reconcilers.length = 5 ∧
    st'.reconcilers.map ControllerBinding.kind =
      [Kind.cluster, .machine, .machineSet, .machineDeployment, .machinePool] := by
  rcases bootRegistration_ok_spec h with ⟨hp, rfl⟩ | ⟨hp, rfl⟩
  · exact ⟨rfl, rfl, by simp [reconcilerBindings], by simp [reconcilerBindings]⟩
  · exact absurd hport hp

theorem reconciler_mode_registrations_witness :
    reconFinalState.webhooks = [] ∧
    reconFinalState.reconcilers = reconcilerBindings defaultConfig ∧
    reconFinalState.reconcilers.length = 5 ∧
    reconFinalState.reconcilers.map ControllerBinding.kind =
      [Kind.cluster, .machine, .machineSet, .machineDeployment, .machinePool] :=
  reconciler_mode_registrations okEnv defaultConfig reconFinalState rfl rfl

/-- Claim C5: every registered reconciliation binding carries, as its
MaxConcurrentReconciles, exactly the concurrency flag of its own kind. -/
theorem per_kind_concurrency_bounds (env : Env) (cfg : Config) (st' : ManagerState)
    (hport : cfg.webhookPort = 0) (h : bootRegistration env cfg = .ok st') :
    ∀ b ∈ st'.reconcilers,
      b.options = concurrency (cfg.concurrencyFor b.kind) ∧
      b.options.maxConcurrentReconciles = cfg.concurrencyFor b.kind := by
  rcases bootRegistration_ok_spec h with ⟨hp, rfl⟩ | ⟨hp, rfl⟩
  · intro b hb
    simp [reconcilerBindings] at hb
    rcases hb with rfl | rfl | rfl | rfl | rfl <;> exact ⟨rfl, rfl⟩
  · exact absurd hport hp

theorem per_kind_concurrency_bounds_witness :
    ControllerBinding.options ⟨Kind.machine, concurrency 10⟩ =
      concurrency (defaultConfig.concurrencyFor
        (ControllerBinding.kind ⟨Kind.machine, concurrency 10⟩)) ∧
    (ControllerBinding.options ⟨Kind.machine, concurrency 10⟩).maxConcurrentReconciles =
      defaultConfig.concurrencyFor (ControllerBinding.kind ⟨Kind.machine, concurrency 10⟩) :=
  per_kind_concurrency_bounds okEnv defaultConfig reconFinalState rfl rfl
    ⟨Kind.machine, concurrency 10⟩ (by decide)

/-- Claim C6 counterexample: with the cluster concurrency flag set to
zero and every external call succeeding, the process boots to the run
loop and exits 0 rather than rejecting the configuration, and the cluster
binding is created with MaxConcurrentReconciles zero. -/
theorem concurrency_validation_counterexample :
    (mainRun okEnv zeroConcurrencyConfig).outcome.exitCode = 0 ∧
    (mainRun okEnv zeroConcurrencyConfig).outcome =
      .ranToCompletion ⟨["ping"], ["ping"], reconcilerBindings zeroConcurrencyConfig, []⟩ ∧
    ControllerBinding.mk Kind.cluster (concurrency 0) ∈
      reconcilerBindings zeroConcurrencyConfig ∧
    (concurrency 0).maxConcurrentReconciles ≤ 0 := by
  exact ⟨rfl, rfl, by decide, by decide⟩

/-- Claim C6 (amended): the boot sequence performs no validation of any
of the five per-kind concurrency flags: setting any kind's flag to a zero
or negative value is not rejected (the run with an all-succeeding
environment still exits 0); every successful reconciliation-mode boot
passes every kind's flag value through verbatim as that kind's
MaxConcurrentReconciles; and in particular the boot with the non-positive
flag creates that kind's binding carrying the non-positive value. -/
theorem concurrency_not_validated (k : Kind) (c : Int) (_hc : c ≤ 0) :
    (mainRun okEnv (defaultConfig.setConcurrency k c)).outcome.exitCode = 0 ∧
    (∀ env cfg st', cfg.webhookPort = 0 → bootRegistration env cfg = .ok st' →
       ∀ k2 : Kind, ControllerBinding.mk k2 (concurrency (cfg.concurrencyFor k2)) ∈
         st'.reconcilers) ∧
    (∀ env st', bootRegistration env (defaultConfig.setConcurrency k c) = .ok st' →
       ControllerBinding.mk k (concurrency c) ∈ st'.reconcilers) := by
  refine ⟨?_, ?_, ?_⟩
  · cases k <;> rfl
  · intro env cfg st' hp h k2
    rcases bootRegistration_ok_spec h with ⟨_, rfl⟩ | ⟨hq, _⟩
    · cases k2 <;> simp [reconcilerBindings, Config.concurrencyFor]
    · exact absurd hp hq
  · intro env st' h
    rcases bootRegistration_ok_spec h with ⟨_, rfl⟩ | ⟨hq, _⟩
    · cases k <;> simp [reconcilerBindings, Config.setConcurrency]
    · cases k <;> exact absurd rfl hq

theorem concurrency_not_validated_witness :
    (mainRun okEnv (Config.setConcurrency defaultConfig Kind.machine (-3))).outcome.exitCode
        = 0 ∧
    ControllerBinding.mk Kind.machinePool
        (concurrency (defaultConfig.concurrencyFor Kind.machinePool)) ∈
      reconFinalState.reconcilers ∧
    ControllerBinding.mk Kind.machine (concurrency (-3)) ∈
      (ManagerState.mk ["ping"] ["ping"]
        (reconcilerBindings (Config.setConcurrency defaultConfig Kind.machine (-3)))
        []).reconcilers :=
  ⟨(concurrency_not_validated Kind.machine (-3) (by decide)).1,
   (concurrency_not_validated Kind.machine (-3) (by decide)).2.1 okEnv defaultConfig
     reconFinalState rfl rfl Kind.machinePool,
   (concurrency_not_validated Kind.machine (-3) (by decide)).2.2 okEnv
     (ManagerState.mk ["ping"] ["ping"]
       (reconcilerBindings (Config.setConcurrency defaultConfig Kind.machine (-3))) [])
     rfl⟩

/-- Claim C7: every fatal boot error exits with code 1 after emitting the
setupLog.Error line of the failing stage, and the run loop (mgr.Start) is
reached exactly when manager construction and every check, controller and
webhook registration succeeded; a completed run implies the registration
phase returned exactly its final state. -/
theorem fatal_boot_errors_exit (env : Env) (cfg : Config) :
    (∀ stage, (mainRun env cfg).outcome = .fatalExit stage →
       (mainRun env cfg).outcome.exitCode = 1 ∧
       stage.logLine ∈ (mainRun env cfg).logs) ∧
    (((∃ st, (mainRun env cfg).outcome = .ranToCompletion st) ∨
        (mainRun env cfg).outcome = .fatalExit .managerRun) ↔
      (env.newManagerFails = false ∧ ∃ st, bootRegistration env cfg = .ok st)) ∧
    (∀ st, (mainRun env cfg).outcome = .ranToCompletion st →
       bootRegistration env cfg = .ok st) := by
  refine ⟨?_, ?_, ?_⟩
  · intro stage hstage
    refine ⟨by rw [hstage]; rfl, ?_⟩
    by_cases hm : env.newManagerFails <;> rcases hb : bootRegistration env cfg with e | st <;>
      by_cases hr : env.managerRunFails <;>
      simp [mainRun, hm, hb, hr] at hstage ⊢ <;>
      simp [← hstage]
  · by_cases hm : env.newManagerFails <;> rcases hb : bootRegistration env cfg with e | st <;>
      by_cases hr : env.managerRunFails <;>
      simp [mainRun, hm, hb, hr] <;>
      exact (bootRegistration_error_stage hb).2
  · intro st hst
    by_cases hm : env.newManagerFails <;> rcases hb : bootRegistration env cfg with e | st2 <;>
      by_cases hr : env.managerRunFails <;>
      simp [mainRun, hm, hb, hr] at hst <;>
      rw [← hst]

theorem fatal_boot_errors_exit_witness :
    (mainRun failManagerEnv defaultConfig).outcome.exitCode = 1 ∧
    FatalStage.managerConstruction.logLine ∈ (mainRun failManagerEnv defaultConfig).logs :=
  (fatal_boot_errors_exit failManagerEnv defaultConfig).1 .managerConstruction (by decide)

/-- Claim C8: every flag left unset takes its documented default:
metrics address :8080, leader election off, all namespaces, profiler
disabled, the five concurrency bounds 10, sync period ten minutes (in
nanoseconds), webhook port 0 and health address :9440. -/
theorem default_flag_values :
    defaultConfig.metricsAddr = ":8080" ∧
    defaultConfig.enableLeaderElection = false ∧
    defaultConfig.watchNamespace = "" ∧
    defaultConfig.profilerAddress = "" ∧
    defaultConfig.clusterConcurrency = 10 ∧
    defaultConfig.machineConcurrency = 10 ∧
    defaultConfig.machineSetConcurrency = 10 ∧
    defaultConfig.machineDeploymentConcurrency = 10 ∧
    defaultConfig.machinePoolConcurrency = 10 ∧
    defaultConfig.syncPeriod = 10 * timeMinute ∧
    defaultConfig.syncPeriod = 600000000000 ∧
    defaultConfig.webhookPort = 0 ∧
    defaultConfig.healthAddr = ":9440" := by
  refine ⟨rfl, rfl, rfl, rfl, rfl, rfl, rfl, rfl, rfl, rfl, by decide, rfl, rfl⟩

/-- Claim C9: the profiler goroutine is spawned exactly when the profiler
address flag is non-empty, and whether the profiler server fails has no
effect on the outcome or exit code of main (its failure is only logged). -/
theorem profiler_sidecar_detached (env : Env) (cfg : Config) (b : Bool) :
    ((mainRun env cfg).profilerStarted = true ↔ cfg.profilerAddress ≠ "") ∧
    (mainRun { env with profilerServeFails := b } cfg).outcome = (mainRun env cfg).outcome ∧
    (mainRun { env with profilerServeFails := b } cfg).outcome.exitCode =
      (mainRun env cfg).outcome.exitCode := by
  refine ⟨?_, mainRun_profiler_irrel env b cfg, by rw [mainRun_profiler_irrel]⟩
  by_cases hm : env.newManagerFails <;> rcases hb : bootRegistration env cfg with e | st <;>
    by_cases hr : env.managerRunFails <;> simp [mainRun, hm, hb, hr]

theorem profiler_sidecar_detached_witness :
    ((mainRun okEnv webhookConfig).profilerStarted = true ↔
      webhookConfig.profilerAddress ≠ "") ∧
    (mainRun { okEnv with profilerServeFails := true } webhookConfig).outcome =
      (mainRun okEnv webhookConfig).outcome ∧
    (mainRun { okEnv with profilerServeFails := true } webhookConfig).outcome.exitCode =
      (mainRun okEnv webhookConfig).outcome.exitCode :=
  profiler_sidecar_detached okEnv webhookConfig true

/-- Claim C10: the manager is always constructed with the fixed
leader-election lock identity controller-leader-election-capi; the
identity depends on no flag, so every replica with leader election
enabled contends for the same lock. -/
theorem leader_election_id_fixed (env : Env) (cfg : Config) :
    (managerOptions cfg).leaderElectionID = "controller-leader-election-capi" ∧
    (mainRun env cfg).options.leaderElectionID = "controller-leader-election-capi" ∧
    (∀ cfg₂ : Config,
       (managerOptions cfg).leaderElectionID = (managerOptions cfg₂).leaderElectionID) := by
  refine ⟨rfl, ?_, fun _ => rfl⟩
  rw [mainRun_options]
  rfl

theorem leader_election_id_fixed_witness :
    (managerOptions defaultConfig).leaderElectionID = "controller-leader-election-capi" ∧
    (mainRun okEnv defaultConfig).options.leaderElectionID =
      "controller-leader-election-capi" ∧
    (∀ cfg₂ : Config,
       (managerOptions defaultConfig).leaderElectionID =
         (managerOptions cfg₂).leaderElectionID) :=
  leader_election_id_fixed okEnv defaultConfig

end CapiMain
